import Mathlib

set_option maxRecDepth 100000
set_option synthInstance.maxSize 1000
set_option maxHeartbeats 4000000

namespace SimpleChess

/-- Board-wide bit-vector, one bit per square; the source stores it in a
64-bit unsigned integer, so all values are kept below 2 ^ 64. -/
abbrev bitboard := Nat

/-- 8 consecutive bits of a bitboard; an 8-bit unsigned integer in the source. -/
abbrev bitlane := Nat

/-- Creates a singleton bitlane: only square n is marked.  The source computes
((bitlane) 1) << n and truncates to 8 bits on return. -/
def sbitlane (n : Nat) : bitlane := (1 <<< n) % 256

/-- Converts a rank-file coordinate to the index of the corresponding bit of a
bitboard: rank * 8 + file, truncated to the uint8 return type. -/
def coords_to_sindex (rank file : Nat) : Nat := (rank * 8 + file) % 256

/-- Converts a standard sindex to a rotated sindex and vice versa:
a = original >> 3, b = original & 0b111, result b * 8 + a (uint8 input). -/
def rotate_sindex (original : Nat) : Nat :=
  let a := (original % 256) >>> 3
  let b := (original % 256) &&& 7
  b * 8 + a

/-- Creates a singleton bitboard: only the square with the given index is
marked (uint64 in the source). -/
def sbitboard (square_index : Nat) : bitboard := (1 <<< square_index) % (2 ^ 64)

/-- piece_color::white of the source enum (true). -/
def white : Bool := true

/-- piece_color::black of the source enum (false). -/
def black : Bool := false

namespace piece_type

/-- piece_type::rook = 0. -/
def rook : Nat := 0

/-- piece_type::knight = 1. -/
def knight : Nat := 1

/-- piece_type::bishop = 2. -/
def bishop : Nat := 2

/-- piece_type::queen = 3. -/
def queen : Nat := 3

/-- piece_type::king = 4. -/
def king : Nat := 4

/-- piece_type::pawn = 5. -/
def pawn : Nat := 5

/-- piece_type::none = 6. -/
def none : Nat := 6

end piece_type

/-- The compact 16-bit move representation of the source: bits 0-5 origin,
bits 6-11 destination, bits 12-14 promotion. -/
structure bitmove where
  data : Nat

/-- The bitmove constructor: data = (promote_to << 12) | (destination << 6) | origin,
with each operand first cast to uint16 and the result stored in a uint16 field. -/
def bitmove.encode (origin destination promote_to : Nat) : bitmove :=
  ⟨(((promote_to % 65536) <<< 12) ||| ((destination % 65536) <<< 6) |||
    (origin % 65536)) % 65536⟩

/-- unpack_origin: data & 0b111111. -/
def bitmove.unpack_origin (m : bitmove) : Nat := m.data &&& 63

/-- unpack_destination: (data >> 6) & 0b111111. -/
def bitmove.unpack_destination (m : bitmove) : Nat := (m.data >>> 6) &&& 63

/-- unpack_promotion: (data >> 12) & 0b111. -/
def bitmove.unpack_promotion (m : bitmove) : Nat := (m.data >>> 12) &&& 7

/-- unpack_all: the triple (origin, destination, promotion). -/
def bitmove.unpack_all (m : bitmove) : Nat × Nat × Nat :=
  (m.unpack_origin, m.unpack_destination, m.unpack_promotion)

/-- C7: for every origin and destination in [0,64) with origin distinct from
destination and every promotion choice in the piece-kind enumeration
(including none, i.e. every value below 7), decoding the compact 16-bit move
produced by encoding (origin, destination, promotion) returns exactly the
triple (origin, destination, promotion). -/
theorem C7_encode_decode_roundtrip :
    ∀ o < 64, ∀ d < 64, ∀ p < 7, o ≠ d →
      (bitmove.encode o d p).unpack_all = (o, d, p) := by
  intro o ho d hd p hp _
  have hdata : (bitmove.encode o d p).data = p * 4096 + d * 64 + o := by
    show (((p % 65536) <<< 12) ||| ((d % 65536) <<< 6) ||| (o % 65536)) % 65536 =
      p * 4096 + d * 64 + o
    have h1 : (p % 65536) <<< 12 = 2 ^ 12 * p := by
      rw [Nat.mod_eq_of_lt (by omega), Nat.shiftLeft_eq]; ring
    have h2 : (d % 65536) <<< 6 = 2 ^ 6 * d := by
      rw [Nat.mod_eq_of_lt (by omega), Nat.shiftLeft_eq]; ring
    have h3 : (o % 65536) = o := Nat.mod_eq_of_lt (by omega)
    have hp12 : (2 : Nat) ^ 12 = 4096 := by norm_num
    have hp6 : (2 : Nat) ^ 6 = 64 := by norm_num
    rw [h1, h2, h3]
    rw [← Nat.mul_add_lt_is_or (by omega : 2 ^ 6 * d < 2 ^ 12) p]
    have h4 : 2 ^ 12 * p + 2 ^ 6 * d = 2 ^ 6 * (2 ^ 6 * p + d) := by ring
    rw [h4, ← Nat.mul_add_lt_is_or (by omega : o < 2 ^ 6) (2 ^ 6 * p + d)]
    rw [Nat.mod_eq_of_lt (by omega)]
    omega
  have h63 : (63 : Nat) = 2 ^ 6 - 1 := by norm_num
  have h7 : (7 : Nat) = 2 ^ 3 - 1 := by norm_num
  have horigin : (bitmove.encode o d p).unpack_origin = o := by
    rw [bitmove.unpack_origin, hdata, h63, Nat.and_pow_two_sub_one_eq_mod]
    omega
  have hdest : (bitmove.encode o d p).unpack_destination = d := by
    rw [bitmove.unpack_destination, hdata, Nat.shiftRight_eq_div_pow, h63,
      Nat.and_pow_two_sub_one_eq_mod]
    have hp6 : (2 : Nat) ^ 6 = 64 := by norm_num
    rw [hp6]
    omega
  have hprom : (bitmove.encode o d p).unpack_promotion = p := by
    rw [bitmove.unpack_promotion, hdata, Nat.shiftRight_eq_div_pow, h7,
      Nat.and_pow_two_sub_one_eq_mod]
    have hp12 : (2 : Nat) ^ 12 = 4096 := by norm_num
    rw [hp12]
    omega
  rw [bitmove.unpack_all, horigin, hdest, hprom]

/-- Witness for C7: a concrete instance with origin 1, destination 2,
promotion none (6). -/
theorem C7_witness :
    (bitmove.encode 1 2 6).unpack_all = (1, 2, 6) :=
  C7_encode_decode_roundtrip 1 (by decide) 2 (by decide) 6 (by decide) (by decide)

/-- Pointwise update of an array modelled as a function: writing value v at
index i. -/
def upd (t : Nat → Nat) (i v : Nat) : Nat → Nat := fun k => if k = i then v else t k

/-- generate_target_lookup_table: an 80-entry zero-initialized array; for each
file in [0,8) the loop body first writes coords_to_sindex 4 file at index
(file << piece_color::white), i.e. file << 1, and then writes
coords_to_sindex 3 file at index (file << piece_color::black), i.e. file << 0;
afterwards a second loop writes i at index 16 + i for every i < 64. -/
def target_lookup_table : Nat → Nat :=
  (List.range 64).foldl (fun t i => upd t (16 + i) i)
    ((List.range 8).foldl
      (fun t file =>
        upd (upd t (file <<< 1) (coords_to_sindex 4 file)) file (coords_to_sindex 3 file))
      (fun _ => 0))

/-- The is_enpassant flag computed by lookup_target:
(moved_piece_type == pawn) | ((origin & 0b111) != (destination & 0b111)) |
(destination_occupant_type == none), using C++ bitwise-or of bools. -/
def is_enpassant (origin destination moved_piece_type destination_occupant_type : Nat) : Bool :=
  (moved_piece_type == piece_type.pawn) || ((origin &&& 7) != (destination &&& 7)) ||
    (destination_occupant_type == piece_type.none)

/-- The index lookup_target computes into the 80-entry table, with the local
const file = destination & 0b111 inlined:
key = ((((file + 1) << aggressor_color) - 1) * is_enpassant)
      + (!is_enpassant * (16 + destination)). -/
def lookup_target_key (origin destination moved_piece_type destination_occupant_type : Nat)
    (aggressor_color : Bool) : Nat :=
  ((((destination &&& 7) + 1) <<< (cond aggressor_color 1 0)) - 1) *
      (cond (is_enpassant origin destination moved_piece_type destination_occupant_type) 1 0) +
    (cond (is_enpassant origin destination moved_piece_type destination_occupant_type) 0 1) *
      (16 + destination)

/-- lookup_target: reads the target table at the computed key. -/
def lookup_target (origin destination moved_piece_type destination_occupant_type : Nat)
    (aggressor_color : Bool) : Nat :=
  target_lookup_table
    (lookup_target_key origin destination moved_piece_type destination_occupant_type
      aggressor_color)

/-- C10: for every origin and destination in [0,64), every moved-piece and
destination-occupant kind, and either mover side, the index lookup_target
computes into the 80-entry table is in [0,80): at most 15 on the en-passant
branch and exactly 16 + destination (hence at most 79) on the identity
branch. -/
theorem C10_lookup_target_key_in_bounds :
    ∀ o < 64, ∀ d < 64, ∀ m < 7, ∀ occ < 7, ∀ c : Bool,
      lookup_target_key o d m occ c < 80 ∧
      (is_enpassant o d m occ = true → lookup_target_key o d m occ c ≤ 15) ∧
      (is_enpassant o d m occ = false → lookup_target_key o d m occ c = 16 + d) := by
  intro o ho d hd m hm occ hocc c
  have hfile : d &&& 7 < 8 := by
    have h7 : (7 : Nat) = 2 ^ 3 - 1 := by norm_num
    rw [h7, Nat.and_pow_two_sub_one_eq_mod]
    omega
  rw [lookup_target_key]
  cases h : is_enpassant o d m occ <;> cases c <;>
    simp [h, Nat.shiftLeft_eq] <;> omega

/-- Witness for C10: concrete inputs origin 0, destination 0, moved-piece kind
rook, occupant kind rook, white mover take the identity branch with key 16. -/
theorem C10_witness :
    lookup_target_key 0 0 0 0 true < 80 ∧ is_enpassant 0 0 0 0 = false :=
  ⟨(C10_lookup_target_key_in_bounds 0 (by decide) 0 (by decide) 0 (by decide) 0 (by decide)
      true).1, by decide⟩

/-- C4 (divergence from the claim): the claim says lookup_target returns the
destination square whenever the destination is occupied, and whenever the
moved piece is not a pawn and origin and destination lie on the same file.
The code instead takes the en-passant branch whenever the moved piece is a
pawn, or the file changes, or the destination is empty (bitwise-or of all
three conditions).  A legal white pawn capture from 8 to the occupied square
17 yields 27, not 17; a quiet white rook move from 0 to the empty same-file
square 8 yields 25, not 8. -/
theorem C4_code_divergence :
    lookup_target 8 17 piece_type.pawn piece_type.rook white = 27 ∧ (27 : Nat) ≠ 17 ∧
      lookup_target 0 8 piece_type.rook piece_type.none white = 25 ∧ (25 : Nat) ≠ 8 := by
  decide

/-- C5 (divergence from the claim): for a legal white en-passant capture
(pawn from 33 to the empty square 40, one file over), the claim says the
target is the destination-file square of rank 4, i.e. coords_to_sindex 4 0 =
32; the code returns 25 because the white key ((file + 1) << 1) - 1 is odd
while the generator stored the white entries at the even indices file << 1
(where they are further overwritten by black entries for files 0..3). -/
theorem C5_code_divergence :
    lookup_target 33 40 piece_type.pawn piece_type.none white = 25 ∧
      coords_to_sindex 4 (40 &&& 7) = 32 ∧ (25 : Nat) ≠ 32 := by
  decide

/-- The per-square body of generate_knight_move_table: the eight guarded
knight moves from (knight_rank, knight_file), or-ed together in source
order. -/
def knight_moves (knight_rank knight_file : Nat) : bitboard :=
  let m : bitboard := 0
  let m := if knight_file > 0 ∧ knight_rank < 6 then
    m ||| sbitboard (coords_to_sindex (knight_rank + 2) (knight_file - 1)) else m
  let m := if knight_file < 7 ∧ knight_rank < 6 then
    m ||| sbitboard (coords_to_sindex (knight_rank + 2) (knight_file + 1)) else m
  let m := if knight_file < 6 ∧ knight_rank < 7 then
    m ||| sbitboard (coords_to_sindex (knight_rank + 1) (knight_file + 2)) else m
  let m := if knight_file > 1 ∧ knight_rank < 7 then
    m ||| sbitboard (coords_to_sindex (knight_rank + 1) (knight_file - 2)) else m
  let m := if knight_file > 0 ∧ knight_rank > 1 then
    m ||| sbitboard (coords_to_sindex (knight_rank - 2) (knight_file - 1)) else m
  let m := if knight_file < 7 ∧ knight_rank > 1 then
    m ||| sbitboard (coords_to_sindex (knight_rank - 2) (knight_file + 1)) else m
  let m := if knight_file > 1 ∧ knight_rank > 0 then
    m ||| sbitboard (coords_to_sindex (knight_rank - 1) (knight_file - 2)) else m
  let m := if knight_file < 6 ∧ knight_rank > 0 then
    m ||| sbitboard (coords_to_sindex (knight_rank - 1) (knight_file + 2)) else m
  m

/-- generate_knight_move_table: iterates over files, then ranks, storing the
move mask of each square at index coords_to_sindex knight_rank knight_file of
a zero-initialized 64-entry array. -/
def knight_move_table : Nat → bitboard :=
  (List.range 8).foldl
    (fun t knight_file =>
      (List.range 8).foldl
        (fun t knight_rank =>
          upd t (coords_to_sindex knight_rank knight_file)
            (knight_moves knight_rank knight_file))
        t)
    (fun _ => 0)

/-- Exhaustive boolean check underlying C9: for each pair (s, t) of squares,
either square t is not reachable from s in the knight table, or 63 - t is
reachable from 63 - s. -/
def knight_symmetry_check : Bool :=
  (List.range 64).all fun s =>
    (List.range 64).all fun t =>
      !(knight_move_table s).testBit t || (knight_move_table (63 - s)).testBit (63 - t)

theorem knight_symmetry_check_eq_true : knight_symmetry_check = true := by rfl

/-- C9: for every pair of squares s and t in [0,64), if the knight table
entry for s has the bit for t set, then the entry for the 180-degree-rotated
square 63 - s has the bit for 63 - t set. -/
theorem C9_knight_table_rotation_symmetric :
    ∀ s < 64, ∀ t < 64, (knight_move_table s).testBit t = true →
      (knight_move_table (63 - s)).testBit (63 - t) = true := by
  intro s hs t ht hbit
  have h := knight_symmetry_check_eq_true
  rw [knight_symmetry_check, List.all_eq_true] at h
  have h1 := h s (List.mem_range.mpr hs)
  rw [List.all_eq_true] at h1
  have h2 := h1 t (List.mem_range.mpr ht)
  simp only [Bool.or_eq_true, Bool.not_eq_true'] at h2
  rcases h2 with h2 | h2
  · rw [hbit] at h2
    cases h2
  · exact h2

/-- Witness for C9: the knight on square 0 reaches square 10, so the knight
on square 63 reaches square 53. -/
theorem C9_witness :
    (knight_move_table 0).testBit 10 = true ∧ (knight_move_table 63).testBit 53 = true :=
  ⟨by decide, C9_knight_table_rotation_symmetric 0 (by decide) 10 (by decide) (by decide)⟩

/-- The towards-queenside scan of generate_rooklike_move_table: visits squares
origin - 1 down to 0 (the recursion argument is the number of squares still to
visit, initially the origin itself), ors in the mark of each visited square and
stops right after the first occupied one. -/
def scan_towards_queenside (occupancy : Nat) : Nat → bitlane
  | 0 => 0
  | k + 1 =>
    let mark := sbitlane k
    if mark &&& occupancy ≠ 0 then mark
    else mark ||| scan_towards_queenside occupancy k

/-- The towards-kingside scan of generate_rooklike_move_table: visits squares
8 - r up to 7 where r is the number of squares still to visit (initially
7 - origin, so the first visited square is origin + 1), ors in the mark of
each visited square and stops right after the first occupied one. -/
def scan_towards_kingside (occupancy : Nat) : Nat → bitlane
  | 0 => 0
  | k + 1 =>
    let mark := sbitlane (7 - k)
    if mark &&& occupancy ≠ 0 then mark
    else mark ||| scan_towards_kingside occupancy k

/-- The loop body of generate_rooklike_move_table for one (origin, occupancy)
entry: the queenside scan followed by the kingside scan, or-ed together. -/
def rooklike_destinations (origin occupancy : Nat) : bitlane :=
  scan_towards_queenside occupancy origin |||
    scan_towards_kingside occupancy (7 - origin)

/-- generate_rooklike_move_table: the occupancy loop runs from 255 down to 1,
so the occupancy = 0 entry of every row keeps its zero initialization; each
other entry holds rooklike_destinations origin occupancy (the entries are
mutually independent, so the iteration order is irrelevant). -/
def rooklike_move_table (origin occupancy : Nat) : bitlane :=
  if occupancy = 0 then 0 else rooklike_destinations origin occupancy

/-- Modelled from the claim's words: square j lies on the contiguous run from
the origin outward, up to and including the first occupied square in that
direction, iff j is distinct from the origin and every square strictly
between j and the origin is unoccupied (a square beyond the first occupied
one has that occupied square strictly between itself and the origin). -/
def on_run (origin occupancy j : Nat) : Bool :=
  (j != origin) &&
    ((List.range 8).all fun i =>
      !(Nat.blt (min j origin) i && Nat.blt i (max j origin)) || !occupancy.testBit i)

/-- Modelled from the claim's words: the expected slider mask marks exactly
the squares in [0,8) that lie on one of the two runs. -/
def spec_run_mask (origin occupancy : Nat) : Nat :=
  (List.range 8).foldl
    (fun acc j => cond (on_run origin occupancy j) (acc ||| (1 <<< j)) acc) 0

/-- Exhaustive boolean check underlying C6: for each origin in [0,8) and each
occupancy in [1,256) (written i + 1 with i in [0,255)), the generated table
entry equals the specification mask. -/
def slider_blocking_check : Bool :=
  (List.range 8).all fun origin =>
    (List.range 255).all fun i =>
      rooklike_move_table origin (i + 1) == spec_run_mask origin (i + 1)

theorem slider_blocking_check_eq_true : slider_blocking_check = true := by rfl

/-- C6 (amended): for every origin in [0,8) and every occupancy pattern in
[1,256), the slider table entry [origin][occupancy] marks exactly the squares
on the contiguous run from the origin outward in each of the two directions
up to and including the first occupied square in that direction, and marks no
square beyond the first occupied square in either direction.  (The claim as
stated over [0,256) fails at occupancy 0, whose entry is never generated.) -/
theorem C6_slider_table_blocking :
    ∀ origin < 8, ∀ occupancy < 256, occupancy ≠ 0 →
      rooklike_move_table origin occupancy = spec_run_mask origin occupancy := by
  intro origin ho occupancy hocc hne
  have h := slider_blocking_check_eq_true
  rw [slider_blocking_check, List.all_eq_true] at h
  have h1 := h origin (List.mem_range.mpr ho)
  rw [List.all_eq_true] at h1
  have h2 := h1 (occupancy - 1) (List.mem_range.mpr (by omega))
  have he : occupancy - 1 + 1 = occupancy := by omega
  rw [he] at h2
  exact eq_of_beq h2

/-- Witness for C6: origin 0, occupancy 4 — the entry marks squares 1 and 2
(stopping at the occupied square 2), matching the specification mask. -/
theorem C6_witness :
    rooklike_move_table 0 4 = spec_run_mask 0 4 ∧ rooklike_move_table 0 4 = 6 :=
  ⟨C6_slider_table_blocking 0 (by decide) 4 (by decide) (by decide), by decide⟩

/-- Counterexample for C6 as stated: at origin 0 and occupancy 0 the table
entry is 0 (the generation loop never reaches occupancy 0), while the run
described by the claim marks squares 1 through 7 (mask 254). -/
theorem C6_counterexample :
    rooklike_move_table 0 0 = 0 ∧ spec_run_mask 0 0 = 254 ∧ (0 : Nat) ≠ 254 := by
  decide

/-- The reversible_move record pushed onto the move log by make_move. -/
structure reversible_move where
  origin : Nat
  destination : Nat
  target : Nat
  captured_piece_type : Nat
  is_promotion : Bool

/-- chess_position: the two side bitboards (indexed by piece_color), their
rotated projections, the seven kind bitboards (indexed by piece_type), the
64-entry occupier lookup table, the move log (list head = top of the
std::stack) and the whose-turn flag. -/
structure chess_position where
  color_bitboard : Bool → bitboard
  color_bitboard_rotated : Bool → bitboard
  type_specific_bitboard : Nat → bitboard
  occupier_type_lookup_table : Nat → Nat
  move_log : List reversible_move
  whos_turn : Bool

/-- Bitwise complement of a bitboard within 64 bits (~b over uint64). -/
def bbnot (b : bitboard) : bitboard := (2 ^ 64 - 1) ^^^ b

/-- Pointwise update of a piece_color-indexed array of bitboards. -/
def updc (t : Bool → bitboard) (i : Bool) (v : bitboard) : Bool → bitboard :=
  fun k => if k = i then v else t k

/-- The C++ bool-to-integer conversion. -/
def b2n (b : Bool) : Nat := cond b 1 0

/-- make_move: the mutation steps of the source, performed in statement
order.  Note two faithful renderings of the source as written: the
destination fill stores (is_promotion ? moved_piece_type : promote_to) in the
occupier table, and the rotated clear of the captured side removes the bit of
origin_rotated, not of the rotated target. -/
def make_move (move : bitmove) (position : chess_position) : chess_position :=
  let origin := move.unpack_origin
  let destination := move.unpack_destination
  let promote_to := move.unpack_promotion
  let is_promotion : Bool := promote_to != piece_type.none
  let moved_piece_type := position.occupier_type_lookup_table origin
  let destination_occupant_type := position.occupier_type_lookup_table destination
  let opponent_color := !position.whos_turn
  let origin_rotated := rotate_sindex origin
  let target := lookup_target origin destination moved_piece_type
    destination_occupant_type position.whos_turn
  let move_log :=
    ({ origin := origin, destination := destination, target := target,
       captured_piece_type := position.occupier_type_lookup_table target,
       is_promotion := is_promotion : reversible_move }) :: position.move_log
  -- Clear the now vacated origin square.
  let occupier1 := upd position.occupier_type_lookup_table origin piece_type.none
  let color1 := updc position.color_bitboard position.whos_turn
    (position.color_bitboard position.whos_turn &&& bbnot (sbitboard origin))
  let type1 := upd position.type_specific_bitboard moved_piece_type
    (position.type_specific_bitboard moved_piece_type &&& bbnot (sbitboard origin))
  let rotated1 := updc position.color_bitboard_rotated position.whos_turn
    (position.color_bitboard_rotated position.whos_turn &&& bbnot (sbitboard origin_rotated))
  -- Clear the target square since the piece which resides on it has been captured.
  let target_piece_type := occupier1 target
  let type2 := upd type1 target_piece_type
    (type1 target_piece_type &&& bbnot (sbitboard target))
  let occupier2 := upd occupier1 target piece_type.none
  let color2 := updc color1 opponent_color
    (color1 opponent_color &&& bbnot (sbitboard target))
  let rotated2 := updc rotated1 opponent_color
    (rotated1 opponent_color &&& bbnot (sbitboard origin_rotated))
  -- Fill the destination square with the moved piece.
  let occupier3 := upd occupier2 destination (cond is_promotion moved_piece_type promote_to)
  let color3 := updc color2 position.whos_turn
    (color2 position.whos_turn ||| sbitboard destination)
  let type3 := upd type2 moved_piece_type
    (type2 moved_piece_type ||| sbitboard destination)
  let rotated3 := updc rotated2 position.whos_turn
    (rotated2 position.whos_turn ||| sbitboard (rotate_sindex destination))
  { color_bitboard := color3
    color_bitboard_rotated := rotated3
    type_specific_bitboard := type3
    occupier_type_lookup_table := occupier3
    move_log := move_log
    whos_turn := opponent_color }

/-- unmake_move: reverses the most recent move using the popped reversible
record, in source statement order.  With an empty move log the source calls
std::stack::top and pop on an empty stack, which has no defined result
(undefined behavior, no emptiness check exists); the embedding returns
Option.none for that case. -/
def unmake_move (position : chess_position) : Option chess_position :=
  match position.move_log with
  | [] => Option.none
  | last_move :: rest =>
    let is_capture : Bool := last_move.captured_piece_type != piece_type.none
    let last_player_to_move := !position.whos_turn
    let post_move_piece_type := position.occupier_type_lookup_table last_move.destination
    let pre_move_piece_type := cond last_move.is_promotion piece_type.pawn post_move_piece_type
    let destination_rotated := rotate_sindex last_move.destination
    let target_rotated := rotate_sindex last_move.target
    let origin_rotated := rotate_sindex last_move.origin
    -- Remove the piece from its destination square.
    let occupier1 := upd position.occupier_type_lookup_table last_move.destination
      piece_type.none
    let color1 := updc position.color_bitboard last_player_to_move
      (position.color_bitboard last_player_to_move &&&
        bbnot (sbitboard last_move.destination))
    let rotated1 := updc position.color_bitboard_rotated last_player_to_move
      (position.color_bitboard_rotated last_player_to_move &&&
        bbnot (sbitboard destination_rotated))
    let type1 := upd position.type_specific_bitboard post_move_piece_type
      (position.type_specific_bitboard post_move_piece_type &&&
        bbnot (sbitboard last_move.destination))
    -- If a piece was captured as a result of this move, un-capture it.
    let occupier2 := upd occupier1 last_move.target last_move.captured_piece_type
    let color2 := updc color1 position.whos_turn
      (color1 position.whos_turn ||| sbitboard last_move.target * b2n is_capture)
    let rotated2 := updc rotated1 position.whos_turn
      (rotated1 position.whos_turn ||| sbitboard target_rotated * b2n is_capture)
    let type2 := upd type1 last_move.captured_piece_type
      (type1 last_move.captured_piece_type ||| sbitboard last_move.target)
    -- Put the piece back on its origin square.
    let occupier3 := upd occupier2 last_move.origin pre_move_piece_type
    let color3 := updc color2 last_player_to_move
      (color2 last_player_to_move ||| sbitboard last_move.origin)
    let rotated3 := updc rotated2 last_player_to_move
      (rotated2 last_player_to_move ||| sbitboard origin_rotated)
    let type3 := upd type2 pre_move_piece_type
      (type2 pre_move_piece_type ||| sbitboard last_move.origin)
    Option.some
      { color_bitboard := color3
        color_bitboard_rotated := rotated3
        type_specific_bitboard := type3
        occupier_type_lookup_table := occupier3
        move_log := rest
        whos_turn := last_player_to_move }

/-- Invariant 1 of spec section 3: for every square, exactly one of the seven
kind bitboards has that square's bit set, and it matches the 64-entry
occupier lookup table. -/
def invariant1 (p : chess_position) : Bool :=
  (List.range 64).all fun s =>
    (((List.range 7).filter fun t => (p.type_specific_bitboard t).testBit s).length == 1) &&
      (p.type_specific_bitboard (p.occupier_type_lookup_table s)).testBit s

/-- Invariant 2: the two side bitboards are disjoint and their union equals
the union of the six non-none kind bitboards. -/
def invariant2 (p : chess_position) : Bool :=
  (p.color_bitboard white &&& p.color_bitboard black == 0) &&
    (p.color_bitboard white ||| p.color_bitboard black ==
      (List.range 6).foldl (fun acc t => acc ||| p.type_specific_bitboard t) 0)

/-- Invariant 3: the rotated side bitboards are exactly the standard side
bitboards re-indexed through rotate_sindex (all four boards within 64
bits). -/
def invariant3 (p : chess_position) : Bool :=
  [white, black].all fun c =>
    Nat.blt (p.color_bitboard c) (2 ^ 64) &&
      Nat.blt (p.color_bitboard_rotated c) (2 ^ 64) &&
      ((List.range 64).all fun s =>
        (p.color_bitboard_rotated c).testBit (rotate_sindex s) ==
          (p.color_bitboard c).testBit s)

/-- Invariant 4: the whose-turn flag is white exactly when the history length
is even. -/
def invariant4 (p : chess_position) : Bool :=
  p.whos_turn == (p.move_log.length % 2 == 0)

/-- Invariants 1-4 of spec section 3 together.  Invariant 5 (history length =
number of completed, not-yet-undone moves) is definitional in this embedding:
the log grows by exactly one on every make_move and shrinks by exactly one on
every successful unmake_move. -/
def invariants (p : chess_position) : Bool :=
  invariant1 p && invariant2 p && invariant3 p && invariant4 p

/-- A concrete valid position: white rook on square 0, white king on square
4, black king on square 60, empty history, white to move.  The quiet rook
move from 0 to the empty square 8 is a legal chess move here. -/
def P0 : chess_position :=
  { color_bitboard := fun c => cond c (sbitboard 0 ||| sbitboard 4) (sbitboard 60)
    color_bitboard_rotated := fun c =>
      cond c (sbitboard (rotate_sindex 0) ||| sbitboard (rotate_sindex 4))
        (sbitboard (rotate_sindex 60))
    type_specific_bitboard := fun t =>
      if t = piece_type.rook then sbitboard 0
      else if t = piece_type.king then sbitboard 4 ||| sbitboard 60
      else if t = piece_type.none then
        (2 ^ 64 - 1) ^^^ (sbitboard 0 ||| sbitboard 4 ||| sbitboard 60)
      else 0
    occupier_type_lookup_table := fun s =>
      if s = 0 then piece_type.rook
      else if s = 4 then piece_type.king
      else if s = 60 then piece_type.king
      else piece_type.none
    move_log := []
    whos_turn := white }

/-- The compact encoding of the quiet rook move from square 0 to square 8,
no promotion. -/
def m0 : bitmove := bitmove.encode 0 8 piece_type.none

/-- A concrete valid position for the promotion branch: white pawn on square
48, white king on square 4, black king on square 60, empty history, white to
move.  The promotion push from 48 to the empty square 56 is legal. -/
def Pp : chess_position :=
  { color_bitboard := fun c => cond c (sbitboard 48 ||| sbitboard 4) (sbitboard 60)
    color_bitboard_rotated := fun c =>
      cond c (sbitboard (rotate_sindex 48) ||| sbitboard (rotate_sindex 4))
        (sbitboard (rotate_sindex 60))
    type_specific_bitboard := fun t =>
      if t = piece_type.pawn then sbitboard 48
      else if t = piece_type.king then sbitboard 4 ||| sbitboard 60
      else if t = piece_type.none then
        (2 ^ 64 - 1) ^^^ (sbitboard 48 ||| sbitboard 4 ||| sbitboard 60)
      else 0
    occupier_type_lookup_table := fun s =>
      if s = 48 then piece_type.pawn
      else if s = 4 then piece_type.king
      else if s = 60 then piece_type.king
      else piece_type.none
    move_log := []
    whos_turn := white }

/-- The compact encoding of the pawn promotion move from square 48 to square
56, promoting to a queen. -/
def mp : bitmove := bitmove.encode 48 56 piece_type.queen

/-- C1 (divergence): applying the legal quiet rook move 0 → 8 to the valid
position P0 and then undoing it does not restore P0: the occupier lookup
table ends with none on square 0, where P0 holds the rook.  (The destination
fill of make_move writes the promotion tag instead of the moved kind, so the
undo reads the wrong pre-move kind back from the destination square.) -/
theorem C1_code_divergence :
    (unmake_move (make_move m0 P0)).map (fun q => q.occupier_type_lookup_table 0) =
        Option.some piece_type.none ∧
      P0.occupier_type_lookup_table 0 = piece_type.rook ∧
      piece_type.none ≠ piece_type.rook := by decide

/-- C2 (divergence): the valid position P0 satisfies invariants 1-4, but
after the legal quiet rook move 0 → 8 invariant 1 fails: square 0 is empty in
the occupier table yet no kind bitboard (not even the none board) has its bit
set, because make_move clears the moved kind's origin bit without ever
setting the none board's origin bit. -/
theorem C2_code_divergence :
    invariants P0 = true ∧ invariants (make_move m0 P0) = false := by decide

/-- C3 (divergence): after the legal non-promotion rook move 0 → 8 the
occupier table records none (the promotion tag) at the destination instead of
the moved rook kind, even though the rook kind bitboard now marks the
destination; after the legal promotion move 48 → 56 (promote to queen) the
occupier table records the pawn kind instead of the queen.  The
destination-fill conditional has its two branches swapped. -/
theorem C3_code_divergence :
    (make_move m0 P0).occupier_type_lookup_table 8 = piece_type.none ∧
      piece_type.none ≠ piece_type.rook ∧
      (make_move m0 P0).type_specific_bitboard piece_type.rook = sbitboard 8 ∧
      (make_move mp Pp).occupier_type_lookup_table 56 = piece_type.pawn ∧
      piece_type.pawn ≠ piece_type.queen := by decide

/-- C8 (divergence): the source performs std::stack::top() and pop() on the
history without any emptiness check, so calling unmake_move on an empty
history is an undefined memory access, not a distinct catchable EmptyHistory
condition; accordingly the embedding has no defined result state there. -/
theorem C8_code_divergence : unmake_move P0 = Option.none := by rfl

end SimpleChess
